import Mathlib

/-!
# Hospital Stock Health System — verification of the classification core

Shallow embedding of the stock-classification and reorder-sizing logic of
`src/app.py`.  The whole computational core of the repository lives in two SQL
statements issued by `load_sample_data_to_snowflake`:

* the dynamic table `CURRENT_STOCK_STATUS` (lines 137–171): a trailing
  7-row window average of `issued` per (hospital_id, medicine_name) group,
  a CASE classification into CRITICAL / WARNING / HEALTHY, a rounded
  `days_until_stockout`, and a `QUALIFY ROW_NUMBER() ... = 1` latest-row
  selection per group;
* the dynamic table `REORDER_RECOMMENDATIONS` (lines 173–201): per status
  row, a CASE computing `recommended_order_quantity` and `priority`;
* the retrieval query `get_reorder_recommendations` (lines 264–287), which
  filters the recommendation rows to `STOCK_STATUS IN ('CRITICAL','WARNING')`.

Numeric columns are embedded as rationals (`ℚ`); SQL `ROUND` (half away from
zero, as NUMBER rounding) as an explicit function on `ℚ`; the `NULLIF(avg, 0)`
division as an explicit zero test (a NULL comparison in a CASE branch is not
satisfied, so the branch falls through).  SQL's `ROW_NUMBER` tie order among
equal dates is implementation-defined; the embedding fixes one deterministic
refinement (a stable insertion sort by date, taking the last row).
-/

/-- The three-valued stock classification produced by the
`CURRENT_STOCK_STATUS` CASE expression. -/
inductive StatusKind where
  | CRITICAL : StatusKind
  | WARNING : StatusKind
  | HEALTHY : StatusKind
deriving DecidableEq

/-- One row of the `STOCK_RECORDS` table (src/app.py lines 101–114). -/
structure StockRecord where
  date : ℤ
  hospital_id : String
  hospital_name : String
  medicine_name : String
  opening_stock : ℚ
  received : ℚ
  issued : ℚ
  closing_stock : ℚ
  lead_time_days : ℚ
  min_stock_level : ℚ
deriving DecidableEq

/-- One row of the `CURRENT_STOCK_STATUS` dynamic table
(src/app.py lines 137–171).  `days_until_stockout` is `none` exactly when the
SQL expression is NULL (zero window average). -/
structure StockStatus where
  hospital_id : String
  hospital_name : String
  medicine_name : String
  current_stock : ℚ
  min_stock_level : ℚ
  lead_time_days : ℚ
  avg_daily_usage : ℚ
  stock_status : StatusKind
  days_until_stockout : Option ℚ
  date : ℤ
deriving DecidableEq

/-- One row of the `REORDER_RECOMMENDATIONS` dynamic table
(src/app.py lines 173–201). -/
structure ReorderRecommendation where
  hospital_id : String
  hospital_name : String
  medicine_name : String
  current_stock : ℚ
  avg_daily_usage : ℚ
  lead_time_days : ℚ
  stock_status : StatusKind
  days_until_stockout : Option ℚ
  recommended_order_quantity : ℤ
  priority : ℤ
deriving DecidableEq

/-- SQL `ROUND(x)` on NUMBER values: round half away from zero. -/
def sqlRound (x : ℚ) : ℤ :=
  if 0 ≤ x then (x + 1/2).floor else -((-x + 1/2).floor)

/-- SQL `ROUND(x, 1)`: round half away from zero at one decimal place. -/
def sqlRound1 (x : ℚ) : ℚ :=
  (sqlRound (x * 10) : ℚ) / 10

/-- The frame `ROWS BETWEEN 6 PRECEDING AND CURRENT ROW` of the window
`AVG(issued) OVER (PARTITION BY ... ORDER BY date ...)` at row index `i` of a
date-ordered group: the slice of positions `i-6 .. i` (clamped at the start of
the group). -/
def windowAt (seq : List ℚ) (i : ℕ) : List ℚ :=
  (seq.take (i + 1)).drop (i - 6)

/-- `AVG(issued) OVER (... ROWS BETWEEN 6 PRECEDING AND CURRENT ROW)` at row
index `i`: sum of the frame divided by its row count (src/app.py
lines 149–153). -/
def avgIssuedAt (seq : List ℚ) (i : ℕ) : ℚ :=
  (windowAt seq i).sum / ((windowAt seq i).length : ℚ)

/-- The CASE expression of `CURRENT_STOCK_STATUS` (src/app.py lines 154–162):
`closing_stock <= min_stock_level` gives CRITICAL; otherwise
`closing_stock / NULLIF(avg, 0) <= lead_time_days` gives WARNING, where a zero
average makes the division NULL and the comparison unsatisfied; otherwise
HEALTHY. -/
def classify (current_stock min_stock_level avg_daily_usage lead_time_days : ℚ) :
    StatusKind :=
  if current_stock ≤ min_stock_level then StatusKind.CRITICAL
  else if avg_daily_usage ≠ 0 ∧ current_stock / avg_daily_usage ≤ lead_time_days then
    StatusKind.WARNING
  else StatusKind.HEALTHY

/-- `ROUND(closing_stock / NULLIF(avg, 0), 1)` (src/app.py lines 163–167):
NULL (here `none`) when the window average is zero. -/
def daysUntilStockout (current_stock avg_daily_usage : ℚ) : Option ℚ :=
  if avg_daily_usage = 0 then none
  else some (sqlRound1 (current_stock / avg_daily_usage))

/-- Grouping key of the `PARTITION BY hospital_id, medicine_name` clauses. -/
def groupKey (r : StockRecord) : String × String :=
  (r.hospital_id, r.medicine_name)

/-- Append a key if it is not yet present (first-appearance order of the
distinct partition keys). -/
def insertKey (k : String × String) (ks : List (String × String)) :
    List (String × String) :=
  if k ∈ ks then ks else ks ++ [k]

/-- The distinct (hospital_id, medicine_name) partition keys of the input, in
order of first appearance. -/
def keysOf (rs : List StockRecord) : List (String × String) :=
  rs.foldl (fun ks r => insertKey (groupKey r) ks) []

/-- Stable insertion (by `date`) used to realise `ORDER BY date`. -/
def insertByDate (r : StockRecord) : List StockRecord → List StockRecord
  | [] => [r]
  | s :: ss => if r.date ≤ s.date then r :: s :: ss else s :: insertByDate r ss

/-- `ORDER BY date` within one partition.  SQL leaves the relative order of
equal dates implementation-defined; this embedding fixes one deterministic
refinement. -/
def sortByDate (rs : List StockRecord) : List StockRecord :=
  rs.foldr insertByDate []

/-- The `CURRENT_STOCK_STATUS` row built from the latest record `r` of the
date-sorted group `s`: the window average is the frame ending at the last row
of the group. -/
def statusOfLatest (s : List StockRecord) (r : StockRecord) : StockStatus :=
  let avg := avgIssuedAt (s.map StockRecord.issued) (s.length - 1)
  { hospital_id := r.hospital_id
    hospital_name := r.hospital_name
    medicine_name := r.medicine_name
    current_stock := r.closing_stock
    min_stock_level := r.min_stock_level
    lead_time_days := r.lead_time_days
    avg_daily_usage := avg
    stock_status := classify r.closing_stock r.min_stock_level avg r.lead_time_days
    days_until_stockout := daysUntilStockout r.closing_stock avg
    date := r.date }

/-- `QUALIFY ROW_NUMBER() OVER (PARTITION BY ... ORDER BY date DESC) = 1` for
one partition: keep the row with the maximal date (`none` only for an empty
partition).  Among duplicate maximal dates one row is kept, per the fixed
tie refinement. -/
def latestStatusOfGroup (g : List StockRecord) : Option StockStatus :=
  let s := sortByDate g
  match s.getLast? with
  | none => none
  | some r => some (statusOfLatest s r)

/-- The full `CURRENT_STOCK_STATUS` dynamic table (src/app.py lines 137–171):
one row per distinct (hospital_id, medicine_name) partition of the input. -/
def latestStatusPerSeries (rs : List StockRecord) : List StockStatus :=
  (keysOf rs).filterMap
    (fun k => latestStatusOfGroup (rs.filter (fun r => groupKey r == k)))

/-- The `recommended_order_quantity` CASE of `REORDER_RECOMMENDATIONS`
(src/app.py lines 187–193): `GREATEST(ROUND(avg * (lead + 30) - current), 0)`
for CRITICAL, with 15 in place of 30 for WARNING, else 0. -/
def recommendedOrderQuantity (st : StockStatus) : ℤ :=
  match st.stock_status with
  | StatusKind.CRITICAL =>
      max (sqlRound (st.avg_daily_usage * (st.lead_time_days + 30) - st.current_stock)) 0
  | StatusKind.WARNING =>
      max (sqlRound (st.avg_daily_usage * (st.lead_time_days + 15) - st.current_stock)) 0
  | StatusKind.HEALTHY => 0

/-- The `priority` CASE of `REORDER_RECOMMENDATIONS` (src/app.py
lines 194–198). -/
def priorityOf : StatusKind → ℤ
  | StatusKind.CRITICAL => 1
  | StatusKind.WARNING => 2
  | StatusKind.HEALTHY => 3

/-- One row of `REORDER_RECOMMENDATIONS` derived from a
`CURRENT_STOCK_STATUS` row (src/app.py lines 173–201). -/
def mkRecommendation (st : StockStatus) : ReorderRecommendation :=
  { hospital_id := st.hospital_id
    hospital_name := st.hospital_name
    medicine_name := st.medicine_name
    current_stock := st.current_stock
    avg_daily_usage := st.avg_daily_usage
    lead_time_days := st.lead_time_days
    stock_status := st.stock_status
    days_until_stockout := st.days_until_stockout
    recommended_order_quantity := recommendedOrderQuantity st
    priority := priorityOf st.stock_status }

/-- The full `REORDER_RECOMMENDATIONS` dynamic table: one row per
`CURRENT_STOCK_STATUS` row, HEALTHY rows included (row order is presentation
only and not modelled). -/
def reorderTable (sts : List StockStatus) : List ReorderRecommendation :=
  sts.map mkRecommendation

/-- The retrieval query of `get_reorder_recommendations` (src/app.py
lines 264–287): `WHERE STOCK_STATUS IN ('CRITICAL', 'WARNING')` over the
recommendations table. -/
def get_reorder_recommendations (sts : List StockStatus) :
    List ReorderRecommendation :=
  (reorderTable sts).filter
    (fun c => c.stock_status == StatusKind.CRITICAL
      || c.stock_status == StatusKind.WARNING)

/-- Severity order used to state monotonicity: HEALTHY < WARNING < CRITICAL. -/
def severity : StatusKind → ℕ
  | StatusKind.HEALTHY => 0
  | StatusKind.WARNING => 1
  | StatusKind.CRITICAL => 2

/-- The spec's window formula, written from its words: the arithmetic mean of
`issued` over positions `max(0, i-6) .. i` (position count
`i + 1 - (i - 6)` in truncated natural arithmetic). -/
def specWindowMean (seq : List ℚ) (i : ℕ) : ℚ :=
  (((List.range' (i - 6) (i + 1 - (i - 6))).map (fun j => seq.getD j 0)).sum) /
    ((i + 1 - (i - 6) : ℕ) : ℚ)

/-- Concrete stock record used in witnesses: day 1, closing stock 50,
issued 5, lead time 2, minimum level 3. -/
def dupRec1 : StockRecord :=
  { date := 1, hospital_id := "H1", hospital_name := "Hosp", medicine_name := "Med",
    opening_stock := 10, received := 0, issued := 5, closing_stock := 50,
    lead_time_days := 2, min_stock_level := 3 }

/-- A second record for the same (hospital, medicine) key bearing the same
date as `dupRec1`. -/
def dupRec2 : StockRecord :=
  { dupRec1 with issued := 7, closing_stock := 60 }

/-- Concrete CRITICAL status row used in witnesses. -/
def critStatus : StockStatus :=
  { hospital_id := "H1", hospital_name := "Hosp", medicine_name := "Med",
    current_stock := 40, min_stock_level := 50, lead_time_days := 5,
    avg_daily_usage := 10, stock_status := StatusKind.CRITICAL,
    days_until_stockout := some 4, date := 1 }

/-- Concrete HEALTHY status row used in witnesses. -/
def healthyStatus : StockStatus :=
  { hospital_id := "H1", hospital_name := "Hosp", medicine_name := "Med",
    current_stock := 100, min_stock_level := 10, lead_time_days := 5,
    avg_daily_usage := 10, stock_status := StatusKind.HEALTHY,
    days_until_stockout := some 10, date := 1 }

/-- Any row delivered by the retrieval query stems from a status row of the
input whose classification is CRITICAL or WARNING. -/
lemma mem_get_reorder {sts : List StockStatus} {c : ReorderRecommendation}
    (hc : c ∈ get_reorder_recommendations sts) :
    ∃ st, st ∈ sts ∧ c = mkRecommendation st ∧
      (st.stock_status = StatusKind.CRITICAL ∨ st.stock_status = StatusKind.WARNING) := by
  unfold get_reorder_recommendations reorderTable at hc
  rw [List.mem_filter] at hc
  obtain ⟨hmem, hp⟩ := hc
  rw [List.mem_map] at hmem
  obtain ⟨st, hst, rfl⟩ := hmem
  refine ⟨st, hst, rfl, ?_⟩
  have hstat : (mkRecommendation st).stock_status = st.stock_status := rfl
  rw [Bool.or_eq_true, beq_iff_eq, beq_iff_eq, hstat] at hp
  exact hp

/-- C1: for non-negative inputs the status is decided in precedence order —
`current_stock <= min_stock_level` gives CRITICAL regardless of usage;
otherwise positive usage with `current_stock / avg_daily_usage <=
lead_time_days` gives WARNING; otherwise HEALTHY — and the result is always
exactly one of the three statuses. -/
theorem C1_classify_precedence (cs ms avg lt : ℚ)
    (hcs : 0 ≤ cs) (hms : 0 ≤ ms) (havg : 0 ≤ avg) (hlt : 0 ≤ lt) :
    (cs ≤ ms → classify cs ms avg lt = StatusKind.CRITICAL) ∧
    (¬ cs ≤ ms → 0 < avg → cs / avg ≤ lt →
      classify cs ms avg lt = StatusKind.WARNING) ∧
    (¬ cs ≤ ms → ¬ (0 < avg ∧ cs / avg ≤ lt) →
      classify cs ms avg lt = StatusKind.HEALTHY) ∧
    (classify cs ms avg lt = StatusKind.CRITICAL ∨
      classify cs ms avg lt = StatusKind.WARNING ∨
      classify cs ms avg lt = StatusKind.HEALTHY) := by
  have hiff : (avg ≠ 0 ∧ cs / avg ≤ lt) ↔ (0 < avg ∧ cs / avg ≤ lt) := by
    constructor
    · rintro ⟨h1, h2⟩; exact ⟨havg.lt_of_ne (Ne.symm h1), h2⟩
    · rintro ⟨h1, h2⟩; exact ⟨h1.ne', h2⟩
  unfold classify
  split_ifs with h1 h2
  · exact ⟨fun _ => rfl, fun hn => absurd h1 hn, fun hn => absurd h1 hn, Or.inl rfl⟩
  · exact ⟨fun hc => absurd hc h1, fun _ _ _ => rfl,
      fun _ hn => absurd (hiff.mp h2) hn, Or.inr (Or.inl rfl)⟩
  · refine ⟨fun hc => absurd hc h1, ?_, fun _ _ => rfl, Or.inr (Or.inr rfl)⟩
    intro _ hpos hle
    exact absurd (hiff.mpr ⟨hpos, hle⟩) h2

/-- Witness for C1 at the spec's scenario `current_stock=5,
min_stock_level=10`: CRITICAL regardless of usage. -/
theorem C1_classify_precedence_witness :
    classify 5 10 2 3 = StatusKind.CRITICAL :=
  (C1_classify_precedence 5 10 2 3 (by norm_num) (by norm_num) (by norm_num)
    (by norm_num)).1 (by norm_num)

/-- C2: a zero window average makes `days_until_stockout` undefined (`none`,
no error) and the status HEALTHY unless the CRITICAL stock-level rule
applies; zero-usage inputs never classify WARNING. -/
theorem C2_zero_usage (cs ms lt : ℚ) :
    daysUntilStockout cs 0 = none ∧
    (¬ cs ≤ ms → classify cs ms 0 lt = StatusKind.HEALTHY) ∧
    (cs ≤ ms → classify cs ms 0 lt = StatusKind.CRITICAL) ∧
    classify cs ms 0 lt ≠ StatusKind.WARNING := by
  refine ⟨by simp [daysUntilStockout], fun h => by simp [classify, h],
    fun h => by simp [classify, h], ?_⟩
  unfold classify
  split_ifs with h1 h2
  · simp
  · exact absurd h2.1 (by norm_num)
  · simp

/-- Witness for C2 at `current_stock=50, min_stock_level=10,
lead_time_days=5` with zero usage. -/
theorem C2_zero_usage_witness :
    daysUntilStockout 50 0 = none ∧ classify 50 10 0 5 = StatusKind.HEALTHY :=
  ⟨(C2_zero_usage 50 10 5).1, (C2_zero_usage 50 10 5).2.1 (by norm_num)⟩

/-- The window frame at a valid row index is exactly the slice of positions
`i-6 .. i` read off by index. -/
lemma windowAt_eq_range_map (seq : List ℚ) (i : ℕ) (h : i < seq.length) :
    windowAt seq i =
      (List.range' (i - 6) (i + 1 - (i - 6))).map (fun j => seq.getD j 0) := by
  apply List.ext_getElem
  · simp only [windowAt, List.length_drop, List.length_take, List.length_map,
      List.length_range']
    omega
  · intro n h1 h2
    simp only [windowAt, List.length_drop, List.length_take] at h1
    simp only [windowAt, List.getElem_drop, List.getElem_take,
      List.getElem_map, List.getElem_range']
    have hn : i - 6 + n < seq.length := by omega
    simp [List.getD_eq_getElem?_getD, List.getElem?_eq_getElem hn]

/-- C3: at every valid index the window average equals the arithmetic mean of
`issued` over positions `max(0, i-6) .. i`; the frame has `min(i+1, 7)` rows
(it shrinks, with no padding, at the start of a series); a single-record
series averages to that record's issued value. -/
theorem C3_computeUsage_window (seq : List ℚ) (i : ℕ) (h : i < seq.length) :
    avgIssuedAt seq i = specWindowMean seq i ∧
    (windowAt seq i).length = min (i + 1) 7 ∧
    ∀ x : ℚ, avgIssuedAt [x] 0 = x := by
  refine ⟨?_, ?_, ?_⟩
  · unfold avgIssuedAt specWindowMean
    rw [windowAt_eq_range_map seq i h]
    simp
  · simp only [windowAt, List.length_drop, List.length_take]
    omega
  · intro x
    simp [avgIssuedAt, windowAt]

/-- Witness for C3: window of three rows at index 2, and the single-record
scenario. -/
theorem C3_computeUsage_window_witness :
    avgIssuedAt [1, 2, 3] 2 = specWindowMean [1, 2, 3] 2 ∧
    avgIssuedAt [5] 0 = 5 :=
  ⟨(C3_computeUsage_window [1, 2, 3] 2 (by norm_num)).1,
    (C3_computeUsage_window [1, 2, 3] 2 (by norm_num)).2.2 5⟩

/-- C4: a non-HEALTHY status row is sized with a 30-day (CRITICAL) or 15-day
(WARNING) buffer beyond the lead time, floored at zero, with priority 1
resp. 2; every delivered recommendation's priority is 1 or 2. -/
theorem C4_reorder_sizing (st : StockStatus)
    (h : st.stock_status ≠ StatusKind.HEALTHY) :
    (st.stock_status = StatusKind.CRITICAL →
      (mkRecommendation st).recommended_order_quantity =
        max 0 (sqlRound (st.avg_daily_usage * (st.lead_time_days + 30) - st.current_stock)) ∧
      (mkRecommendation st).priority = 1) ∧
    (st.stock_status = StatusKind.WARNING →
      (mkRecommendation st).recommended_order_quantity =
        max 0 (sqlRound (st.avg_daily_usage * (st.lead_time_days + 15) - st.current_stock)) ∧
      (mkRecommendation st).priority = 2) ∧
    ((mkRecommendation st).priority = 1 ∨ (mkRecommendation st).priority = 2) ∧
    (∀ (sts : List StockStatus) (c : ReorderRecommendation),
      c ∈ get_reorder_recommendations sts → c.priority = 1 ∨ c.priority = 2) := by
  have hdeliv : ∀ (sts : List StockStatus) (c : ReorderRecommendation),
      c ∈ get_reorder_recommendations sts → c.priority = 1 ∨ c.priority = 2 := by
    intro sts c hc
    obtain ⟨st', _, rfl, hcase⟩ := mem_get_reorder hc
    rcases hcase with h' | h' <;>
      simp [mkRecommendation, priorityOf, h']
  refine ⟨?_, ?_, ?_, hdeliv⟩
  · intro hc
    exact ⟨by simp [mkRecommendation, recommendedOrderQuantity, hc, max_comm],
      by simp [mkRecommendation, priorityOf, hc]⟩
  · intro hw
    exact ⟨by simp [mkRecommendation, recommendedOrderQuantity, hw, max_comm],
      by simp [mkRecommendation, priorityOf, hw]⟩
  · cases hst : st.stock_status with
    | CRITICAL => exact Or.inl (by simp [mkRecommendation, priorityOf, hst])
    | WARNING => exact Or.inr (by simp [mkRecommendation, priorityOf, hst])
    | HEALTHY => exact absurd hst h

/-- Witness for C4 at a concrete CRITICAL status row. -/
theorem C4_reorder_sizing_witness :
    (mkRecommendation critStatus).recommended_order_quantity =
      max 0 (sqlRound (critStatus.avg_daily_usage * (critStatus.lead_time_days + 30)
        - critStatus.current_stock)) ∧
    (mkRecommendation critStatus).priority = 1 :=
  (C4_reorder_sizing critStatus (by decide)).1 rfl

/-- C5 counterexample: on a group holding two records with the same date the
engine does not report a validation error — its output type has no error case
and it produces a `StockStatus` for the offending key, silently selecting one
of the duplicates (here the one with closing stock 60, not 50) as the latest
record. -/
theorem C5_counterexample :
    dupRec1.date = dupRec2.date ∧ groupKey dupRec1 = groupKey dupRec2 ∧
    dupRec1 ≠ dupRec2 ∧
    latestStatusPerSeries [dupRec1, dupRec2] =
      [statusOfLatest [dupRec1, dupRec2] dupRec2] ∧
    (latestStatusPerSeries [dupRec1, dupRec2]).map StockStatus.current_stock = [60] := by
  refine ⟨rfl, rfl, by decide, ?_, ?_⟩ <;> rfl

/-- C5 amended: the engine performs no duplicate-date validation — a group of
two same-key, same-date records still yields exactly one `StockStatus`, built
from one of the duplicates (the implementation-defined latest). -/
theorem C5_amended_silent_pick (r1 r2 : StockRecord)
    (hk : groupKey r1 = groupKey r2) (hd : r1.date = r2.date) :
    latestStatusPerSeries [r1, r2] = [statusOfLatest [r1, r2] r2] := by
  have hkeys : keysOf [r1, r2] = [groupKey r2] := by
    simp [keysOf, insertKey, hk]
  have hfilter : [r1, r2].filter (fun r => groupKey r == groupKey r2) = [r1, r2] := by
    simp [List.filter, hk]
  have hsort : sortByDate [r1, r2] = [r1, r2] := by
    simp [sortByDate, insertByDate, hd]
  unfold latestStatusPerSeries
  rw [hkeys]
  simp only [List.filterMap]
  rw [hfilter]
  simp [latestStatusOfGroup, hsort, List.getLast?]

/-- Witness for C5's amended statement at the concrete duplicate pair. -/
theorem C5_amended_silent_pick_witness :
    latestStatusPerSeries [dupRec1, dupRec2] =
      [statusOfLatest [dupRec1, dupRec2] dupRec2] :=
  C5_amended_silent_pick dupRec1 dupRec2 rfl rfl

/-- C6: the delivered recommendation collection is exactly the table rows of
the CRITICAL and WARNING statuses — HEALTHY statuses contribute nothing to
what the consumer receives. -/
theorem C6_healthy_not_delivered (sts : List StockStatus) :
    get_reorder_recommendations sts =
      reorderTable (sts.filter (fun st => st.stock_status == StatusKind.CRITICAL
        || st.stock_status == StatusKind.WARNING)) ∧
    ∀ c : ReorderRecommendation, c ∈ get_reorder_recommendations sts →
      c.stock_status ≠ StatusKind.HEALTHY := by
  constructor
  · unfold get_reorder_recommendations reorderTable
    rw [List.filter_map]
    rfl
  · intro c hc
    obtain ⟨st', _, rfl, hcase⟩ := mem_get_reorder hc
    have hstat : (mkRecommendation st').stock_status = st'.stock_status := rfl
    rw [hstat]
    rcases hcase with h' | h' <;> simp [h']

/-- Witness for C6: the recommendation row of a concrete CRITICAL status is
delivered and is non-HEALTHY. -/
theorem C6_healthy_not_delivered_witness :
    (mkRecommendation critStatus).stock_status ≠ StatusKind.HEALTHY :=
  (C6_healthy_not_delivered [healthyStatus, critStatus]).2
    (mkRecommendation critStatus)
    ((show get_reorder_recommendations [healthyStatus, critStatus] =
        [mkRecommendation critStatus] from rfl) ▸ List.Mem.head _)

/-- C7: with the minimum level, usage, and lead time fixed (non-negative, per
the data model), lowering `current_stock` never lowers the severity of the
classification, where HEALTHY < WARNING < CRITICAL. -/
theorem C7_stock_monotone_severity (ms avg lt s1 s2 : ℚ)
    (havg : 0 ≤ avg) (hlt : 0 ≤ lt) (h2 : 0 ≤ s2) (h12 : s2 ≤ s1) :
    severity (classify s1 ms avg lt) ≤ severity (classify s2 ms avg lt) := by
  by_cases hc2 : s2 ≤ ms
  · have h2C : classify s2 ms avg lt = StatusKind.CRITICAL := by simp [classify, hc2]
    rw [h2C]
    cases classify s1 ms avg lt <;> simp [severity]
  · have hc1 : ¬ s1 ≤ ms := fun hle => hc2 (h12.trans hle)
    by_cases hw1 : avg ≠ 0 ∧ s1 / avg ≤ lt
    · have hpos : 0 < avg := havg.lt_of_ne (Ne.symm hw1.1)
      have hw2 : avg ≠ 0 ∧ s2 / avg ≤ lt :=
        ⟨hw1.1, le_trans ((div_le_div_iff_of_pos_right hpos).mpr h12) hw1.2⟩
      have h1W : classify s1 ms avg lt = StatusKind.WARNING := by
        simp [classify, hc1, hw1.1, hw1.2]
      have h2W : classify s2 ms avg lt = StatusKind.WARNING := by
        simp [classify, hc2, hw2.1, hw2.2]
      rw [h1W, h2W]
    · have h1H : classify s1 ms avg lt = StatusKind.HEALTHY := by
        simp only [classify, if_neg hc1, if_neg hw1]
      rw [h1H]
      exact Nat.zero_le _

/-- Witness for C7: stock falling from 50 to 20 with the other inputs fixed. -/
theorem C7_stock_monotone_severity_witness :
    severity (classify 50 10 2 3) ≤ severity (classify 20 10 2 3) :=
  C7_stock_monotone_severity 10 2 3 50 20 (by norm_num) (by norm_num)
    (by norm_num) (by norm_num)

/-- C8: every recommendation row carries a non-negative
`recommended_order_quantity` — the `GREATEST(..., 0)` floor applies even when
current stock already exceeds the buffer target. -/
theorem C8_quantity_nonneg (st : StockStatus) :
    0 ≤ (mkRecommendation st).recommended_order_quantity := by
  have h : (mkRecommendation st).recommended_order_quantity
      = recommendedOrderQuantity st := rfl
  rw [h]
  unfold recommendedOrderQuantity
  cases st.stock_status with
  | CRITICAL => exact le_max_right _ _
  | WARNING => exact le_max_right _ _
  | HEALTHY => exact le_refl 0

/-- C9: the empty record collection yields empty status and recommendation
collections, with no error (both stages are total functions). -/
theorem C9_empty_input :
    latestStatusPerSeries [] = [] ∧
    reorderTable (latestStatusPerSeries []) = [] ∧
    get_reorder_recommendations (latestStatusPerSeries []) = [] :=
  ⟨rfl, rfl, rfl⟩

/-- C10: the recommendations table materialises one row per status row,
HEALTHY ones included with quantity 0 and priority 3; the retrieval query
alone removes them, by filtering the materialised rows on status. -/
theorem C10_healthy_rows_materialized (sts : List StockStatus) (st : StockStatus) :
    (reorderTable sts).length = sts.length ∧
    (st.stock_status = StatusKind.HEALTHY →
      (mkRecommendation st).recommended_order_quantity = 0 ∧
      (mkRecommendation st).priority = 3) ∧
    get_reorder_recommendations sts =
      (reorderTable sts).filter (fun c => c.stock_status == StatusKind.CRITICAL
        || c.stock_status == StatusKind.WARNING) := by
  refine ⟨by simp [reorderTable], ?_, rfl⟩
  intro hh
  exact ⟨by simp [mkRecommendation, recommendedOrderQuantity, hh],
    by simp [mkRecommendation, priorityOf, hh]⟩

/-- Witness for C10 at a concrete HEALTHY status row. -/
theorem C10_healthy_rows_materialized_witness :
    (mkRecommendation healthyStatus).recommended_order_quantity = 0 ∧
    (mkRecommendation healthyStatus).priority = 3 :=
  (C10_healthy_rows_materialized [] healthyStatus).2.1 rfl
